import Mathlib

/-!
Verification of the autonomous goal-execution core and frontend helpers of
the general-agent repository. Pure functions are embedded directly; the
controller loop is embedded as explicit recursion over the remaining step
budget, with external collaborators (document, decision service, action
attempts) supplied as oracle functions inside an environment record.

The backend python modules (page_analyzer.py, hybrid planner, action
executor, agent controller) are present in the repository only through
their documentation files; the definitions below that embed them are
modelled from the spec and from the documented pseudocode, constants and
heuristics, as noted on each definition.
-/

namespace ChatComposer

/-- State of the chat composer: the textarea value and the in-flight flag,
from src/frontend/src/components/ChatComposer.tsx. -/
structure ComposerState where
  value : String
  isLoading : Bool
deriving Repr, DecidableEq

/-- Embeds the JavaScript trim method used by handleSend: strip whitespace
from both ends of the string, working on the character list. -/
def jsTrim (s : String) : String :=
  String.mk
    (((s.data.dropWhile Char.isWhitespace).reverse.dropWhile
      Char.isWhitespace).reverse)

/-- Embeds handleSend (ChatComposer.tsx lines 21 to 25): if the trimmed value
is empty or a request is in flight, do nothing; otherwise emit one onSend call
with the trimmed message and reset the value. Returns the emitted call (if
any) and the new textarea value. -/
def handleSend (s : ComposerState) : Option String × String :=
  if jsTrim s.value = "" ∨ s.isLoading then (none, s.value)
  else (some (jsTrim s.value), "")

/-- Embeds handleKeyDown (ChatComposer.tsx lines 27 to 32): Enter without
Shift triggers handleSend; every other key leaves the state alone. -/
def handleKeyDown (key : String) (shiftKey : Bool) (s : ComposerState) :
    Option String × String :=
  if key = "Enter" ∧ shiftKey = false then handleSend s else (none, s.value)

/-- Embeds the disabled guard of the Send button (ChatComposer.tsx line 59):
disabled exactly when the trimmed value is empty or a request is in flight. -/
def sendButtonDisabled (s : ComposerState) : Bool :=
  decide (jsTrim s.value = "" ∨ s.isLoading = true)

/-- Clicking the Send button: a disabled button emits no event; an enabled
one runs handleSend (ChatComposer.tsx lines 57 to 68). -/
def clickSend (s : ComposerState) : Option String × String :=
  if sendButtonDisabled s then (none, s.value) else handleSend s

end ChatComposer

namespace ApiClient

/-- Trace of one retryWithBackoff run: the final result, the list of delays
slept between attempts, and the number of invocations of fn. -/
structure RetryTrace (E A : Type) where
  result : Except E A
  delays : List Nat
  calls : Nat
deriving Repr

/-- Embeds the loop of retryWithBackoff (api client source, lines 251 to
273). fn gives the result of the k-th invocation; fuel is the number of
retries still allowed (maxRetries minus attempt); attempt is the current
attempt index. On failure with fuel left, sleep initialDelay times 2 to the
attempt and recurse; with no fuel left, rethrow the last error. -/
def retryGo (fn : Nat → Except E A) (initialDelay : Nat) :
    Nat → Nat → RetryTrace E A
  | fuel, attempt =>
    match fn attempt with
    | .ok a => ⟨.ok a, [], 1⟩
    | .error e =>
      match fuel with
      | 0 => ⟨.error e, [], 1⟩
      | f + 1 =>
        let t := retryGo fn initialDelay f (attempt + 1)
        ⟨t.result, initialDelay * 2 ^ attempt :: t.delays, t.calls + 1⟩

/-- Embeds retryWithBackoff: attempts run from 0 through maxRetries. -/
def retryWithBackoff (fn : Nat → Except E A) (maxRetries : Nat)
    (initialDelay : Nat) : RetryTrace E A :=
  retryGo fn initialDelay maxRetries 0

/-- Sample invocation stream for witnesses: fails on attempt 0, succeeds on
attempt 1 with value 7. -/
def sampleFn : Nat → Except String Nat :=
  fun k => if k = 0 then .error "transient" else .ok 7

end ApiClient

namespace AgentCore

/-- Constant MAX_LINKS = 20 from page_analyzer.py as recorded in
COMPLETE_PROJECT_DOCUMENTATION_FOR_CHATGPT.md. -/
def MAX_LINKS : Nat := 20

/-- Constant MAX_BUTTONS = 10 from page_analyzer.py as documented. -/
def MAX_BUTTONS : Nat := 10

/-- Constant MAX_INPUTS = 10 from page_analyzer.py as documented. -/
def MAX_INPUTS : Nat := 10

/-- Constant TEXT_SUMMARY_LENGTH = 800 from page_analyzer.py as documented. -/
def TEXT_SUMMARY_LENGTH : Nat := 800

/-- Constant CLICK_RETRY_ATTEMPTS = 2 from action_executor.py as documented. -/
def CLICK_RETRY_ATTEMPTS : Nat := 2

/-- Constant DEFAULT_MAX_STEPS = 20 from autonomous_controller.py as
documented. -/
def DEFAULT_MAX_STEPS : Nat := 20

/-- A link or button on the page: label text, a locator string, and the
visibility verdict of the capability layer. -/
structure ElementInfo where
  text : String
  selector : String
  visible : Bool
deriving Repr, DecidableEq

/-- An input field on the page with its metadata. -/
structure InputInfo where
  name : String
  kind : String
  selector : String
  placeholder : Option String
  visible : Bool
deriving Repr, DecidableEq

/-- The underlying live document as seen through the capability interface:
location, title, full visible text, and the raw element collections before
any truncation. -/
structure Document where
  url : String
  title : String
  visibleText : String
  headings : List String
  links : List ElementInfo
  buttons : List ElementInfo
  inputs : List InputInfo
deriving Repr, DecidableEq

/-- PageState produced by the Observer, with the field names used by
page_analyzer.py in the documentation. -/
structure PageState where
  url : String
  title : String
  main_text_summary : String
  headings : List String
  links : List ElementInfo
  buttons : List ElementInfo
  inputs : List InputInfo
  analysis_timestamp : String
deriving Repr, DecidableEq

/-- Modelled from the spec: page_analyzer.py itself is absent from the
sources; per section 4.1 of the spec and the documented analysis output,
analyze_page truncates the visible text to TEXT_SUMMARY_LENGTH characters,
excludes non-visible elements, and caps links, buttons and inputs at
MAX_LINKS, MAX_BUTTONS, MAX_INPUTS. The timestamp is the only input besides
the document. -/
def analyze_page (doc : Document) (now : String) : PageState :=
  { url := doc.url
    title := doc.title
    main_text_summary := String.mk (doc.visibleText.data.take TEXT_SUMMARY_LENGTH)
    headings := doc.headings
    links := (doc.links.filter (fun l => l.visible)).take MAX_LINKS
    buttons := (doc.buttons.filter (fun b => b.visible)).take MAX_BUTTONS
    inputs := (doc.inputs.filter (fun i => i.visible)).take MAX_INPUTS
    analysis_timestamp := now }

/-- The enumerated action kinds of ActionDecision, as documented for the
hybrid planner and action executor. -/
inductive ActionKind
  | click
  | typeText
  | read
  | scroll
  | wait
  | navigate
  | finish
deriving Repr, DecidableEq

/-- Error raised by the decision service client on a malformed or invalid
reply. -/
structure DecisionError where
  msg : String
deriving Repr, DecidableEq

/-- ActionDecision, field for field as the documented dataclass; the float
confidence is embedded as a rational number. -/
structure ActionDecision where
  thought : String
  action : ActionKind
  target_selector : Option String
  input_text : Option String
  confidence : ℚ
  explanation : String
  timestamp : String
deriving Repr, DecidableEq

/-- A selector is present in the observed state when some link, button or
input carries it. -/
def selectorPresent (st : PageState) (sel : String) : Bool :=
  st.links.any (fun l => l.selector = sel) ||
  st.buttons.any (fun b => b.selector = sel) ||
  st.inputs.any (fun i => i.selector = sel)

/-- Field requirements of the data model: click needs a target selector,
typeText needs both a target selector and input text. -/
def requiredFieldsOk (d : ActionDecision) : Bool :=
  match d.action with
  | .click => d.target_selector.isSome
  | .typeText => d.target_selector.isSome && d.input_text.isSome
  | _ => true

/-- Modelled from the spec: the planner validation code is absent from the
sources; per section 4.4 a decision is valid when its required fields are
present, its target selector (if any) references an element present in the
state, and its confidence lies in the unit interval. -/
def validDecision (st : PageState) (d : ActionDecision) : Bool :=
  requiredFieldsOk d &&
  (match d.target_selector with
   | some sel => selectorPresent st sel
   | none => true) &&
  decide (0 ≤ d.confidence ∧ d.confidence ≤ 1)

/-- Modelled from the spec: out-of-range confidence is clamped into the unit
interval rather than rejected (section 4.4). -/
def clampConfidence (d : ActionDecision) : ActionDecision :=
  { d with confidence := max 0 (min 1 d.confidence) }

/-- Modelled from the spec: the documented _safe_fallback_decision of the
planner returns a safe scroll action (direction down, smallest unit); the
python module is absent from the sources. -/
def safeFallbackDecision (reason : String) (now : String) : ActionDecision :=
  { thought := reason
    action := .scroll
    target_selector := none
    input_text := some "down"
    confidence := 1
    explanation := "safe fallback: a minimal downward scroll is always safe"
    timestamp := now }

/-- Modelled from the spec: hybrid_planner.py is absent from the sources;
per section 4.4, replan_next_action first takes the rule-engine decision if
one matched, otherwise the decision-service reply; either candidate is
clamped and validated, and on a DecisionError or a candidate failing
validation the safe fallback is substituted instead of propagating. The
rule-engine and service outputs are supplied as oracle arguments. -/
def replan_next_action (st : PageState) (ruleDecision : Option ActionDecision)
    (svcDecision : Except DecisionError ActionDecision) (now : String) :
    ActionDecision :=
  match ruleDecision with
  | some d =>
    if validDecision st (clampConfidence d) then clampConfidence d
    else safeFallbackDecision "rule decision failed validation" now
  | none =>
    match svcDecision with
    | .ok d =>
      if validDecision st (clampConfidence d) then clampConfidence d
      else safeFallbackDecision "service decision failed validation" now
    | .error _ => safeFallbackDecision "decision service error" now

/-- Outcome of a single dispatch attempt against the document: success,
an execution error, or expiry of the fixed per-attempt timeout. -/
inductive AttemptOutcome
  | ok (detail : String)
  | err (detail : String)
  | timeout
deriving Repr, DecidableEq

/-- A timeout counts as a failed attempt exactly like an execution error;
it is never fatal on its own. -/
def attemptFailed : AttemptOutcome → Bool
  | .ok _ => false
  | .err _ => true
  | .timeout => true

/-- Status of an executed decision as documented for action_executor.py. -/
inductive ExecStatus
  | success
  | failed
  | goalReached
deriving Repr, DecidableEq

/-- Structured result of executing one decision. -/
structure ExecutionOutcome where
  decision : ActionDecision
  status : ExecStatus
  detail : String
deriving Repr, DecidableEq

/-- A capability-interface call made against the document. -/
inductive DocEffect
  | click (sel : String)
  | typeInto (sel : String) (text : String)
  | scroll (dir : String)
  | navigate (dest : String)
  | readText
  | waitFor (amount : String)
deriving Repr, DecidableEq

/-- The capability method one dispatch of a non-finish decision invokes. -/
def dispatchEffect (d : ActionDecision) : DocEffect :=
  match d.action with
  | .click => .click (d.target_selector.getD "")
  | .typeText => .typeInto (d.target_selector.getD "") (d.input_text.getD "")
  | .scroll => .scroll (d.input_text.getD "down")
  | .navigate => .navigate (d.target_selector.getD "")
  | .read => .readText
  | .wait => .waitFor (d.input_text.getD "")
  | .finish => .readText

/-- Modelled from the spec: the retry loop of action_executor.py is absent
from the sources; per section 4.5 and the documented retry logic, each
attempt is consumed in order and a failure with attempts remaining recurses
on the next attempt index. Returns the final status and the number of
attempts made. -/
def attemptLoop (attempts : Nat → AttemptOutcome) :
    Nat → Nat → ExecStatus × Nat
  | 0, _ => (.failed, 0)
  | r + 1, idx =>
    if attemptFailed (attempts idx) then
      let p := attemptLoop attempts r (idx + 1)
      (p.1, p.2 + 1)
    else (.success, 1)

/-- Modelled from the spec: action_executor.py is absent from the sources;
per section 4.5 and the documented execute flow, a finish decision
short-circuits to goalReached without touching the document, and every other
kind dispatches through the retry loop with CLICK_RETRY_ATTEMPTS attempts.
Returns the outcome, the list of capability calls made (one per attempt),
and the number of attempts made. -/
def execute (d : ActionDecision) (attempts : Nat → AttemptOutcome) :
    ExecutionOutcome × List DocEffect × Nat :=
  if d.action = ActionKind.finish then
    ({ decision := d, status := .goalReached, detail := "goal marked complete" },
     [], 0)
  else
    let p := attemptLoop attempts CLICK_RETRY_ATTEMPTS 0
    ({ decision := d, status := p.1, detail := "dispatched" },
     List.replicate p.2 (dispatchEffect d), p.2)

/-- Modelled from the spec: agent_controller.py is absent from the sources;
its documentation (src/unnamed/part_004, lines 171 to 175) records the
heuristic of _is_repetitive_loop verbatim: it returns true exactly when the
last 3 observations have the same URL. The observation history is kept most
recent first. -/
def isRepetitiveLoop (observations : List PageState) : Bool :=
  match observations with
  | a :: b :: c :: _ => a.url == b.url && b.url == c.url
  | _ => false

/-- Reason a goal run stopped, per the GoalReport data model. -/
inductive TerminationReason
  | goalComplete
  | loopDetected
  | budgetExhausted
  | aborted
deriving Repr, DecidableEq

/-- Error raised when the document handle itself is unusable. -/
structure ObservationError where
  msg : String
deriving Repr, DecidableEq

/-- One step of the run: the decision taken and its outcome. -/
structure HistoryEntry where
  step : Nat
  decision : ActionDecision
  outcome : ExecutionOutcome
deriving Repr, DecidableEq

/-- Terminal artifact of a goal run. -/
structure GoalReport where
  goal : String
  completed : Bool
  stepsTaken : Nat
  terminationReason : TerminationReason
  history : List HistoryEntry
  summary : String
deriving Repr, DecidableEq

/-- External collaborators of one goal run, supplied as oracles: the k-th
observation result, the goal-completion verdict on a state, the rule-engine
and decision-service outputs per step, the attempt outcomes per step, and
the clock. -/
structure Env where
  observe : Nat → Except ObservationError Document
  goalComplete : PageState → Bool
  ruleDecision : Nat → PageState → Option ActionDecision
  svcDecision : Nat → PageState → Except DecisionError ActionDecision
  attemptOutcomes : Nat → Nat → AttemptOutcome
  clock : Nat → String

/-- Result of a goal run: either the propagated first-observation error or a
structured report, together with the number of observation calls made. -/
structure RunResult where
  result : Except ObservationError GoalReport
  obsCalls : Nat

/-- Modelled from the spec: autonomous_controller.py is absent from the
sources; per the documented main loop of run_goal and sections 4.7 and 7 of
the spec, each iteration observes, checks goal completion, checks for a
repetitive loop, plans, executes and records; an observation error on the
very first call propagates, a later one is absorbed as an aborted report;
exhausting the budget yields a budget-exhausted report. The first argument
is the remaining step budget, then the current step number, the observation
history (most recent first) and the history so far (most recent first). -/
def runGoalLoop (env : Env) (goal : String) :
    Nat → Nat → List PageState → List HistoryEntry → RunResult
  | 0, stepNum, _, hist =>
    ⟨.ok { goal := goal, completed := false, stepsTaken := stepNum,
           terminationReason := .budgetExhausted, history := hist.reverse,
           summary := "max steps reached without completing the goal" }, 0⟩
  | remaining + 1, stepNum, obsHist, hist =>
    match env.observe stepNum with
    | .error e =>
      if stepNum = 0 then ⟨.error e, 1⟩
      else
        ⟨.ok { goal := goal, completed := false, stepsTaken := stepNum,
               terminationReason := .aborted, history := hist.reverse,
               summary := e.msg }, 1⟩
    | .ok doc =>
      let st := analyze_page doc (env.clock stepNum)
      if env.goalComplete st then
        ⟨.ok { goal := goal, completed := true, stepsTaken := stepNum,
               terminationReason := .goalComplete, history := hist.reverse,
               summary := "goal achieved" }, 1⟩
      else if isRepetitiveLoop (st :: obsHist) then
        ⟨.ok { goal := goal, completed := false, stepsTaken := stepNum,
               terminationReason := .loopDetected, history := hist.reverse,
               summary := "detected repetitive loop, stopping" }, 1⟩
      else
        let decision := replan_next_action st (env.ruleDecision stepNum st)
          (env.svcDecision stepNum st) (env.clock stepNum)
        let ex := execute decision (env.attemptOutcomes stepNum)
        let entry : HistoryEntry :=
          { step := stepNum, decision := decision, outcome := ex.1 }
        let rest := runGoalLoop env goal remaining (stepNum + 1)
          (st :: obsHist) (entry :: hist)
        ⟨rest.result, rest.obsCalls + 1⟩

/-- Modelled from the spec: run_goal starts the loop with the full step
budget, at step 0, with empty histories. -/
def run_goal (env : Env) (goal : String) (maxSteps : Nat) : RunResult :=
  runGoalLoop env goal maxSteps 0 [] []

/-- Sample attempt stream that always times out. -/
def sampleTimeoutAttempts : Nat → AttemptOutcome := fun _ => .timeout

/-- Sample click decision targeting a result link. -/
def sampleClickDecision : ActionDecision :=
  { thought := "click the result"
    action := .click
    target_selector := some "a.result"
    input_text := none
    confidence := 1
    explanation := "the link matches the goal keywords"
    timestamp := "t1" }

/-- Sample finish decision. -/
def sampleFinishDecision : ActionDecision :=
  { thought := "goal reached"
    action := .finish
    target_selector := none
    input_text := none
    confidence := 1
    explanation := "the state satisfies the goal"
    timestamp := "t2" }

/-- Observation of the start page, used in the loop-guard scenarios. -/
def cexObsStart : PageState :=
  { url := "https://site.example/start"
    title := "Start page"
    main_text_summary := "start"
    headings := []
    links := []
    buttons := []
    inputs := []
    analysis_timestamp := "t0" }

/-- First observation of the results page. -/
def cexObsResults1 : PageState :=
  { url := "https://site.example/results"
    title := "Results"
    main_text_summary := "results"
    headings := []
    links := []
    buttons := []
    inputs := []
    analysis_timestamp := "t1" }

/-- Second observation of the results page: same URL, later timestamp. -/
def cexObsResults2 : PageState :=
  { cexObsResults1 with analysis_timestamp := "t2" }

/-- A decision repeated at two consecutive steps: first production. -/
def cexRepeatDecision1 : ActionDecision :=
  { thought := "click next"
    action := .click
    target_selector := some "button.next"
    input_text := none
    confidence := 1
    explanation := "advance through the results"
    timestamp := "t1" }

/-- The same (actionKind, targetLocator) decision produced again one step
later. -/
def cexRepeatDecision2 : ActionDecision :=
  { cexRepeatDecision1 with timestamp := "t2" }

end AgentCore

namespace ApiClient

theorem retryGo_calls_le (fn : Nat → Except E A) (d : Nat) :
    ∀ fuel a, (retryGo fn d fuel a).calls ≤ fuel + 1 := by
  intro fuel
  induction fuel with
  | zero =>
    intro a
    unfold retryGo
    cases fn a <;> simp
  | succ f ih =>
    intro a
    unfold retryGo
    cases fn a with
    | ok v => simp
    | error e =>
      simp only
      have := ih (a + 1)
      omega

theorem retryGo_calls_pos (fn : Nat → Except E A) (d : Nat) :
    ∀ fuel a, 1 ≤ (retryGo fn d fuel a).calls := by
  intro fuel a
  unfold retryGo
  cases fn a with
  | ok v => simp
  | error e => cases fuel <;> simp

theorem retryGo_delays_eq (fn : Nat → Except E A) (d : Nat) :
    ∀ fuel a, (retryGo fn d fuel a).delays =
      (List.range ((retryGo fn d fuel a).calls - 1)).map
        (fun k => d * 2 ^ (a + k)) := by
  intro fuel
  induction fuel with
  | zero =>
    intro a
    unfold retryGo
    cases fn a <;> simp
  | succ f ih =>
    intro a
    unfold retryGo
    cases fn a with
    | ok v => simp
    | error e =>
      simp only
      have hpos := retryGo_calls_pos fn d f (a + 1)
      have hd := ih (a + 1)
      obtain ⟨m, hm⟩ : ∃ m, (retryGo fn d f (a + 1)).calls = m + 1 :=
        ⟨(retryGo fn d f (a + 1)).calls - 1, by omega⟩
      rw [hd, hm]
      simp only [Nat.add_sub_cancel, List.range_succ_eq_map, List.map_cons,
        List.map_map]
      congr 1
      apply List.map_congr_left
      intro k _
      simp only [Function.comp_apply]
      rw [show a + 1 + k = a + Nat.succ k by omega]

theorem retryGo_success_at (fn : Nat → Except E A) (d : Nat) :
    ∀ fuel a j v, a ≤ j → j ≤ a + fuel → fn j = .ok v →
      (∀ i, a ≤ i → i < j → ∃ e, fn i = .error e) →
      (retryGo fn d fuel a).result = .ok v ∧
      (retryGo fn d fuel a).calls = j - a + 1 := by
  intro fuel
  induction fuel with
  | zero =>
    intro a j v haj hja hok _
    have : j = a := by omega
    subst this
    unfold retryGo
    rw [hok]
    simp
  | succ f ih =>
    intro a j v haj hja hok hfail
    by_cases hja2 : j = a
    · subst hja2
      unfold retryGo
      rw [hok]
      simp
    · obtain ⟨e, he⟩ := hfail a (le_refl a) (by omega)
      unfold retryGo
      rw [he]
      simp only
      have := ih (a + 1) j v (by omega) (by omega) hok
        (fun i hi1 hi2 => hfail i (by omega) hi2)
      constructor
      · exact this.1
      · have h2 := this.2
        omega

theorem retryGo_all_fail (fn : Nat → Except E A) (d : Nat) :
    ∀ fuel a e, (∀ i, a ≤ i → i ≤ a + fuel → ∃ er, fn i = .error er) →
      fn (a + fuel) = .error e →
      (retryGo fn d fuel a).result = .error e := by
  intro fuel
  induction fuel with
  | zero =>
    intro a e _ hlast
    unfold retryGo
    rw [Nat.add_zero] at hlast
    rw [hlast]
  | succ f ih =>
    intro a e hall hlast
    obtain ⟨er, her⟩ := hall a (le_refl a) (by omega)
    unfold retryGo
    rw [her]
    simp only
    exact ih (a + 1) e (fun i hi1 hi2 => hall i (by omega) (by omega))
      (by rw [show a + 1 + f = a + (f + 1) by omega]; exact hlast)

end ApiClient

namespace ChatComposer

/-- C9: for every composer state, if the trimmed input text is empty or a
request is in flight, neither clicking Send nor pressing Enter emits an
onSend call or changes the input; otherwise each emits exactly one onSend
call carrying the trimmed message and resets the input to the empty
string. -/
theorem composer_send_guard (s : ComposerState) :
    (jsTrim s.value = "" ∨ s.isLoading = true →
      clickSend s = (none, s.value) ∧
      handleKeyDown "Enter" false s = (none, s.value)) ∧
    (¬(jsTrim s.value = "" ∨ s.isLoading = true) →
      clickSend s = (some (jsTrim s.value), "") ∧
      handleKeyDown "Enter" false s = (some (jsTrim s.value), "")) := by
  constructor
  · intro h
    have hsend : handleSend s = (none, s.value) := by
      unfold handleSend
      rw [if_pos h]
    have hdis : sendButtonDisabled s = true := decide_eq_true h
    refine ⟨?_, ?_⟩
    · unfold clickSend
      rw [hdis]
      simp
    · unfold handleKeyDown
      rw [if_pos ⟨rfl, rfl⟩]
      exact hsend
  · intro h
    have hsend : handleSend s = (some (jsTrim s.value), "") := by
      unfold handleSend
      rw [if_neg h]
    have hdis : sendButtonDisabled s = false := by
      unfold sendButtonDisabled
      exact decide_eq_false h
    refine ⟨?_, ?_⟩
    · unfold clickSend
      rw [hdis]
      simpa using hsend
    · unfold handleKeyDown
      rw [if_pos ⟨rfl, rfl⟩]
      exact hsend

/-- Witness for C9: a concrete non-empty idle state sends its trimmed
message, and a concrete in-flight state sends nothing. -/
theorem composer_send_guard_witness :
    clickSend ⟨"hello", false⟩ = (some (jsTrim "hello"), "") ∧
    clickSend ⟨"   ", true⟩ = (none, "   ") := by
  constructor
  · exact ((composer_send_guard ⟨"hello", false⟩).2 (by decide)).1
  · exact ((composer_send_guard ⟨"   ", true⟩).1 (Or.inr rfl)).1

end ChatComposer

namespace ApiClient

/-- C10: retryWithBackoff invokes fn at most maxRetries + 1 times, sleeps
initialDelay times 2 to the k before retry k + 1, returns the result of the
first successful invocation, and when every invocation fails it rethrows the
error of the final attempt. -/
theorem retryWithBackoff_spec (fn : Nat → Except E A)
    (maxRetries initialDelay : Nat) :
    (retryWithBackoff fn maxRetries initialDelay).calls ≤ maxRetries + 1 ∧
    (retryWithBackoff fn maxRetries initialDelay).delays =
      (List.range ((retryWithBackoff fn maxRetries initialDelay).calls - 1)).map
        (fun k => initialDelay * 2 ^ k) ∧
    (∀ j v, j ≤ maxRetries → fn j = .ok v →
      (∀ i, i < j → ∃ e, fn i = .error e) →
      (retryWithBackoff fn maxRetries initialDelay).result = .ok v ∧
      (retryWithBackoff fn maxRetries initialDelay).calls = j + 1) ∧
    (∀ e, (∀ i, i ≤ maxRetries → ∃ er, fn i = .error er) →
      fn maxRetries = .error e →
      (retryWithBackoff fn maxRetries initialDelay).result = .error e) := by
  refine ⟨?_, ?_, ?_, ?_⟩
  · exact retryGo_calls_le fn initialDelay maxRetries 0
  · have h := retryGo_delays_eq fn initialDelay maxRetries 0
    simpa using h
  · intro j v hj hok hfail
    have h := retryGo_success_at fn initialDelay maxRetries 0 j v
      (Nat.zero_le j) (by omega) hok (fun i _ hi2 => hfail i hi2)
    simpa using h
  · intro e hall hlast
    exact retryGo_all_fail fn initialDelay maxRetries 0 e
      (fun i _ hi2 => hall i (by omega)) (by simpa using hlast)

/-- Witness for C10: with the sample stream failing once then succeeding,
two retries allowed and a one second initial delay, the call returns the
first success after exactly two invocations with a single one second
sleep. -/
theorem retryWithBackoff_spec_witness :
    (retryWithBackoff sampleFn 2 1000).result = Except.ok 7 ∧
    (retryWithBackoff sampleFn 2 1000).calls = 2 := by
  have h := (retryWithBackoff_spec sampleFn 2 1000).2.2.1 1 7 (by omega) rfl
    (by
      intro i hi
      have hi0 : i = 0 := by omega
      subst hi0
      exact ⟨"transient", rfl⟩)
  exact h

end ApiClient

namespace AgentCore

theorem attemptLoop_zero (att : Nat → AttemptOutcome) (idx : Nat) :
    attemptLoop att 0 idx = (ExecStatus.failed, 0) := rfl

theorem attemptLoop_succ (att : Nat → AttemptOutcome) (r idx : Nat) :
    attemptLoop att (r + 1) idx =
      if attemptFailed (att idx) then
        ((attemptLoop att r (idx + 1)).1, (attemptLoop att r (idx + 1)).2 + 1)
      else (ExecStatus.success, 1) := rfl

theorem attemptLoop_calls_le (att : Nat → AttemptOutcome) :
    ∀ r idx, (attemptLoop att r idx).2 ≤ r := by
  intro r
  induction r with
  | zero => intro idx; exact Nat.le_refl 0
  | succ n ih =>
    intro idx
    rw [attemptLoop_succ]
    split
    · exact Nat.succ_le_succ (ih (idx + 1))
    · exact Nat.succ_le_succ (Nat.zero_le n)

theorem attemptLoop_all_fail (att : Nat → AttemptOutcome) :
    ∀ r idx, (∀ i, i < r → attemptFailed (att (idx + i)) = true) →
      attemptLoop att r idx = (ExecStatus.failed, r) := by
  intro r
  induction r with
  | zero => intro idx _; rfl
  | succ n ih =>
    intro idx h
    rw [attemptLoop_succ]
    have h0 : attemptFailed (att idx) = true := by
      have := h 0 (Nat.succ_pos n)
      simpa using this
    rw [if_pos h0, ih (idx + 1) (fun i hi => by
      have := h (i + 1) (by omega)
      rwa [show idx + (i + 1) = idx + 1 + i by omega] at this)]

theorem attemptLoop_congr (att1 att2 : Nat → AttemptOutcome) :
    ∀ r idx, (∀ i, i < r → att1 (idx + i) = att2 (idx + i)) →
      attemptLoop att1 r idx = attemptLoop att2 r idx := by
  intro r
  induction r with
  | zero => intro idx _; rfl
  | succ n ih =>
    intro idx h
    have h0 : att1 idx = att2 idx := by
      have := h 0 (Nat.succ_pos n)
      simpa using this
    rw [attemptLoop_succ, attemptLoop_succ, h0,
      ih (idx + 1) (fun i hi => by
        have := h (i + 1) (by omega)
        rwa [show idx + (i + 1) = idx + 1 + i by omega] at this)]

theorem safeFallback_valid (st : PageState) (reason now : String) :
    validDecision st (safeFallbackDecision reason now) = true := by
  unfold validDecision safeFallbackDecision requiredFieldsOk
  norm_num

/-- C3: for every observed state, rule-engine output and decision-service
reply, the decision returned by replan_next_action passes validation; a
DecisionError, or a candidate failing validation, is replaced by the safe
fallback scroll rather than propagated. -/
theorem planner_decision_always_valid (st : PageState)
    (ruleDecision : Option ActionDecision)
    (svcDecision : Except DecisionError ActionDecision) (now : String) :
    validDecision st (replan_next_action st ruleDecision svcDecision now)
      = true := by
  cases ruleDecision with
  | some d =>
    show validDecision st
      (if validDecision st (clampConfidence d) = true then clampConfidence d
       else safeFallbackDecision "rule decision failed validation" now) = true
    split
    · assumption
    · exact safeFallback_valid st _ now
  | none =>
    cases svcDecision with
    | ok d =>
      show validDecision st
        (if validDecision st (clampConfidence d) = true then clampConfidence d
         else safeFallbackDecision "service decision failed validation" now)
        = true
      split
      · assumption
      · exact safeFallback_valid st _ now
    | error e =>
      exact safeFallback_valid st "decision service error" now

/-- C5: the executor attempts each non-finish dispatch at most
CLICK_RETRY_ATTEMPTS = 2 times, a timeout counts as a failed attempt rather
than a fatal error, two failed attempts yield a Failed outcome after exactly
two attempts, and the result never depends on any attempt beyond the first
two, so a third attempt is never made. -/
theorem executor_retry_policy (d : ActionDecision)
    (f g : Nat → AttemptOutcome) (hne : d.action ≠ ActionKind.finish)
    (h0 : f 0 = g 0) (h1 : f 1 = g 1) :
    (execute d f).2.2 ≤ CLICK_RETRY_ATTEMPTS ∧
    attemptFailed AttemptOutcome.timeout = true ∧
    (attemptFailed (f 0) = true → attemptFailed (f 1) = true →
      (execute d f).1.status = ExecStatus.failed ∧ (execute d f).2.2 = 2) ∧
    execute d f = execute d g := by
  have hexec : ∀ h : Nat → AttemptOutcome, execute d h =
      ({ decision := d, status := (attemptLoop h CLICK_RETRY_ATTEMPTS 0).1,
         detail := "dispatched" },
       List.replicate (attemptLoop h CLICK_RETRY_ATTEMPTS 0).2
         (dispatchEffect d),
       (attemptLoop h CLICK_RETRY_ATTEMPTS 0).2) := by
    intro h
    unfold execute
    rw [if_neg hne]
  refine ⟨?_, rfl, ?_, ?_⟩
  · rw [hexec f]
    exact attemptLoop_calls_le f CLICK_RETRY_ATTEMPTS 0
  · intro hf0 hf1
    have hall : attemptLoop f CLICK_RETRY_ATTEMPTS 0 = (ExecStatus.failed, 2) := by
      apply attemptLoop_all_fail
      intro i hi
      have hcase : i = 0 ∨ i = 1 := by
        unfold CLICK_RETRY_ATTEMPTS at hi
        omega
      rcases hcase with h | h <;> subst h
      · simpa using hf0
      · simpa using hf1
    rw [hexec f, hall]
    exact ⟨rfl, rfl⟩
  · rw [hexec f, hexec g,
      attemptLoop_congr f g CLICK_RETRY_ATTEMPTS 0 (fun i hi => by
        have hcase : i = 0 ∨ i = 1 := by
          unfold CLICK_RETRY_ATTEMPTS at hi
          omega
        rcases hcase with h | h <;> subst h
        · simpa using h0
        · simpa using h1)]

/-- Witness for C5: a concrete click decision whose attempts all time out is
reported Failed within the two-attempt bound. -/
theorem executor_retry_policy_witness :
    (execute sampleClickDecision sampleTimeoutAttempts).2.2 ≤
      CLICK_RETRY_ATTEMPTS ∧
    (execute sampleClickDecision sampleTimeoutAttempts).1.status =
      ExecStatus.failed := by
  have h := executor_retry_policy sampleClickDecision sampleTimeoutAttempts
    sampleTimeoutAttempts (by decide) rfl rfl
  exact ⟨h.1, (h.2.2.1 rfl rfl).1⟩

/-- C7: a Finish decision short-circuits to a GoalReached outcome with no
capability call made against the document and zero dispatch attempts. -/
theorem finish_short_circuit (d : ActionDecision)
    (att : Nat → AttemptOutcome) (h : d.action = ActionKind.finish) :
    (execute d att).1.status = ExecStatus.goalReached ∧
    (execute d att).2.1 = [] ∧ (execute d att).2.2 = 0 := by
  unfold execute
  rw [if_pos h]
  exact ⟨rfl, rfl, rfl⟩

/-- Witness for C7: the sample finish decision reaches the goal with an
empty effect list. -/
theorem finish_short_circuit_witness :
    (execute sampleFinishDecision sampleTimeoutAttempts).1.status =
      ExecStatus.goalReached ∧
    (execute sampleFinishDecision sampleTimeoutAttempts).2.1 = [] ∧
    (execute sampleFinishDecision sampleTimeoutAttempts).2.2 = 0 :=
  finish_short_circuit sampleFinishDecision sampleTimeoutAttempts rfl

/-- C6: every PageState produced by analyze_page is bounded: the text
summary holds at most TEXT_SUMMARY_LENGTH = 800 characters and the links,
buttons and inputs collections never exceed MAX_LINKS = 20, MAX_BUTTONS = 10
and MAX_INPUTS = 10, for every document. -/
theorem analyzer_bounded (doc : Document) (now : String) :
    (analyze_page doc now).main_text_summary.length ≤ TEXT_SUMMARY_LENGTH ∧
    (analyze_page doc now).links.length ≤ MAX_LINKS ∧
    (analyze_page doc now).buttons.length ≤ MAX_BUTTONS ∧
    (analyze_page doc now).inputs.length ≤ MAX_INPUTS := by
  refine ⟨?_, ?_, ?_, ?_⟩
  · show (doc.visibleText.data.take TEXT_SUMMARY_LENGTH).length ≤
      TEXT_SUMMARY_LENGTH
    rw [List.length_take]
    exact Nat.min_le_left _ _
  · show ((doc.links.filter (fun l => l.visible)).take MAX_LINKS).length ≤
      MAX_LINKS
    rw [List.length_take]
    exact Nat.min_le_left _ _
  · show ((doc.buttons.filter (fun b => b.visible)).take MAX_BUTTONS).length ≤
      MAX_BUTTONS
    rw [List.length_take]
    exact Nat.min_le_left _ _
  · show ((doc.inputs.filter (fun i => i.visible)).take MAX_INPUTS).length ≤
      MAX_INPUTS
    rw [List.length_take]
    exact Nat.min_le_left _ _

/-- C8: observing the same document twice yields PageStates equal in every
field except the analysis timestamp. -/
theorem observer_idempotent (doc : Document) (t1 t2 : String) :
    (analyze_page doc t1).url = (analyze_page doc t2).url ∧
    (analyze_page doc t1).title = (analyze_page doc t2).title ∧
    (analyze_page doc t1).main_text_summary =
      (analyze_page doc t2).main_text_summary ∧
    (analyze_page doc t1).headings = (analyze_page doc t2).headings ∧
    (analyze_page doc t1).links = (analyze_page doc t2).links ∧
    (analyze_page doc t1).buttons = (analyze_page doc t2).buttons ∧
    (analyze_page doc t1).inputs = (analyze_page doc t2).inputs :=
  ⟨rfl, rfl, rfl, rfl, rfl, rfl, rfl⟩

/-- C4 counterexample: the same (actionKind, targetLocator) decision is
produced twice in a row with no change in the location identifier between
the two productions, reaching a repetition threshold of two, yet the loop
check returns false on the resulting observation window, because the
documented heuristic only compares the URLs of the last three observations
and the observation before the repeated pair had a different URL. -/
theorem loop_guard_action_repetition_cex :
    cexRepeatDecision1.action = cexRepeatDecision2.action ∧
    cexRepeatDecision1.target_selector = cexRepeatDecision2.target_selector ∧
    cexObsResults1.url = cexObsResults2.url ∧
    isRepetitiveLoop [cexObsResults2, cexObsResults1, cexObsStart] = false := by
  refine ⟨rfl, rfl, rfl, ?_⟩
  decide

/-- C4 (amended): the loop guard consults only location identifiers, not
decisions; it flags a loop exactly when the last three observations share
the same URL, so repeated decisions are flagged once the location has
stayed unchanged across three consecutive observations. -/
theorem loop_guard_location_stagnation (o1 o2 o3 : PageState)
    (rest : List PageState) (h12 : o1.url = o2.url) (h23 : o2.url = o3.url) :
    isRepetitiveLoop (o1 :: o2 :: o3 :: rest) = true := by
  simp [isRepetitiveLoop, h12, h23]

/-- Witness for the amended C4: three consecutive observations of the
results page trip the loop guard. -/
theorem loop_guard_location_stagnation_witness :
    isRepetitiveLoop [cexObsResults2, cexObsResults1, cexObsResults1] = true :=
  loop_guard_location_stagnation cexObsResults2 cexObsResults1 cexObsResults1
    [] rfl rfl

theorem runGoalLoop_obsCalls_le (env : Env) (goal : String) :
    ∀ rem stepNum obsHist hist,
      (runGoalLoop env goal rem stepNum obsHist hist).obsCalls ≤ rem := by
  intro rem
  induction rem with
  | zero => intro stepNum obsHist hist; exact Nat.le_refl 0
  | succ n ih =>
    intro stepNum obsHist hist
    simp only [runGoalLoop]
    cases henv : env.observe stepNum with
    | error e =>
      dsimp only
      split
      · exact Nat.succ_le_succ (Nat.zero_le n)
      · exact Nat.succ_le_succ (Nat.zero_le n)
    | ok doc =>
      dsimp only
      split
      · exact Nat.succ_le_succ (Nat.zero_le n)
      · split
        · exact Nat.succ_le_succ (Nat.zero_le n)
        · exact Nat.succ_le_succ (ih _ _ _)

/-- C1: run_goal is a total function of its environment and budget, and the
number of observation calls it makes is at most maxSteps + 1 (the loop in
fact observes at most maxSteps times, once per iteration). -/
theorem run_goal_observation_bound (env : Env) (goal : String)
    (maxSteps : Nat) :
    (run_goal env goal maxSteps).obsCalls ≤ maxSteps + 1 :=
  Nat.le_succ_of_le (runGoalLoop_obsCalls_le env goal maxSteps 0 [] [])

theorem runGoalLoop_ok_of_pos (env : Env) (goal : String) :
    ∀ rem stepNum obsHist hist, stepNum ≠ 0 →
      ∃ r, (runGoalLoop env goal rem stepNum obsHist hist).result =
        Except.ok r := by
  intro rem
  induction rem with
  | zero => intro stepNum obsHist hist _; exact ⟨_, rfl⟩
  | succ n ih =>
    intro stepNum obsHist hist hne
    simp only [runGoalLoop]
    cases henv : env.observe stepNum with
    | error e =>
      dsimp only
      split
      · rename_i h0
        exact absurd h0 hne
      · exact ⟨_, rfl⟩
    | ok doc =>
      dsimp only
      split
      · exact ⟨_, rfl⟩
      · split
        · exact ⟨_, rfl⟩
        · exact ih (stepNum + 1) _ _ (Nat.succ_ne_zero stepNum)

/-- C2: run_goal never surfaces an error for in-loop failures; the caller
receives a structured GoalReport in every case except when the very first
observation fails, and any error value it returns is exactly the error of
that first observation. -/
theorem run_goal_error_propagation (env : Env) (goal : String)
    (maxSteps : Nat) :
    (∃ r, (run_goal env goal maxSteps).result = Except.ok r) ∨
    (∃ e, (run_goal env goal maxSteps).result = Except.error e ∧
      env.observe 0 = Except.error e) := by
  unfold run_goal
  cases maxSteps with
  | zero => exact Or.inl ⟨_, rfl⟩
  | succ n =>
    simp only [runGoalLoop]
    cases henv : env.observe 0 with
    | error e =>
      dsimp only
      split
      · exact Or.inr ⟨e, rfl, rfl⟩
      · rename_i h0
        exact absurd trivial h0
    | ok doc =>
      dsimp only
      split
      · exact Or.inl ⟨_, rfl⟩
      · split
        · exact Or.inl ⟨_, rfl⟩
        · exact Or.inl (runGoalLoop_ok_of_pos env goal n 1 _ _ (by omega))

end AgentCore
